import Mathlib

/-!
Shallow embedding of `src/action.js` (the active, exported version of the
file: `run` plus the helpers `calculateIterations`, `waitForUrl`,
`getPassword` and `waitForDeploymentToStart`).

Modelling conventions:
* JavaScript numbers are exact rationals (ℚ); `Math.floor` is the integer
  floor `⌊·⌋`.
* Network effects are oracles: each poll attempt reads its outcome from an
  environment function `Nat → _`, and each poller is a fuel-bounded recursion
  (the fuel is the iteration count the source computes) that additionally
  counts the attempts made and the `wait(checkIntervalInMilliseconds)` sleeps
  performed, so that claims about attempt counts and inter-attempt delays are
  statable.
* `axios` promise rejections (and `throw`) are the failure branches of the
  per-attempt outcome analysis; a `try`/`catch` around an attempt body maps
  every failure of the body to the catch branch.
* `axios.get` is called without a `validateStatus` option, so axios's default
  applies: the promise resolves exactly for a response status in [200, 300),
  and any other completed response rejects with `error.response` set (that is
  the `e.response` branch of the catch block in `waitForUrl`).
-/

namespace Action

/-- `const calculateIterations = (maxTimeoutSec, checkIntervalInMilliseconds) =>
      Math.floor(maxTimeoutSec / (checkIntervalInMilliseconds / 1000));` -/
def calculateIterations (maxTimeoutSec checkIntervalInMilliseconds : ℚ) : ℤ :=
  ⌊maxTimeoutSec / (checkIntervalInMilliseconds / 1000)⌋

/-! ### getPassword -/

/-- One parsed cookie, as produced by `setCookieParser(setCookieHeader)`. -/
structure Cookie where
  name : String
  value : String
deriving DecidableEq

/-- The response to the bypass POST, reduced to the fields `getPassword`
reads: the status code and the parsed `set-cookie` header (`none` when the
response carries no `Set-Cookie` header). -/
structure BypassResponse where
  status : Nat
  setCookie : Option (List Cookie)
deriving DecidableEq

/-- How `getPassword` fails: `requestFailed` is an axios rejection (the
`validateStatus` check failed, i.e. the transport/status level), `missingJwt`
is `throw new Error('no vercel JWT in response')`. -/
inductive BypassError
  | requestFailed
  | missingJwt
deriving DecidableEq

/-- `validateStatus: (status) => status >= 200 && status < 307` from the
axios config in `getPassword`. -/
def bypassValidStatus (status : Nat) : Bool :=
  200 ≤ status && status < 307

/-- `getPassword`, as a function of the bypass response the platform sends
back.  An invalid status makes the axios promise reject (`requestFailed`);
otherwise the `set-cookie` header is parsed, `cookies.find` locates the first
cookie named `_vercel_jwt`, and a missing cookie or a falsy (empty) value
throws `'no vercel JWT in response'`.  The function contains no loop: one
response in, one result out. -/
def getPassword (response : BypassResponse) : Except BypassError String :=
  if bypassValidStatus response.status then
    match response.setCookie with
    | none => .error .missingJwt
    | some cookies =>
      match cookies.find? (fun cookie => cookie.name == "_vercel_jwt") with
      | none => .error .missingJwt
      | some vercelJwtCookie =>
        if vercelJwtCookie.value == "" then .error .missingJwt
        else .ok vercelJwtCookie.value
  else .error .requestFailed

/-! ### waitForUrl -/

/-- Outcome of the `axios.get(checkUri.toString(), { headers })` call:
either the server replied with some status code (`response`), or the request
was made and no response arrived (`requestError`, the `e.request` branch of
the catch block). -/
inductive GetResult
  | response (status : Nat)
  | requestError
deriving DecidableEq

/-- `axios.get` resolves exactly when the received status passes axios's
default `validateStatus`, i.e. lies in [200, 300); any other outcome is a
promise rejection that lands in the catch block of `waitForUrl`. -/
def axiosGetSucceeds : GetResult → Bool
  | .response status => 200 ≤ status && status < 300
  | .requestError => false

/-- The environment of one iteration of the `waitForUrl` loop: the bypass
response the `getPassword` call would see (relevant only when
`vercelPassword` is set) and the outcome of the health-check GET (relevant
only when that GET is reached). -/
structure UrlAttempt where
  bypassResponse : BypassResponse
  get : GetResult
deriving DecidableEq

/-- One iteration of the `waitForUrl` loop body succeeds (the function
returns right after logging `'Received success status code'`) exactly when:
the `getPassword` call, made only if `vercelPassword` is truthy, does not
throw; `new URL(path, url)` does not throw (`checkUri` is the resolved
target, `none` standing for a thrown `TypeError`); and the GET resolves.
Every failure of any of these steps is caught by the surrounding
`try`/`catch`, which logs and falls through to
`await wait(checkIntervalInMilliseconds)`. -/
def attemptSucceeds (vercelPassword : Bool) (checkUri : Option String)
    (a : UrlAttempt) : Bool :=
  (if vercelPassword then (getPassword a.bypassResponse).toBool else true) &&
  checkUri.isSome &&
  axiosGetSucceeds a.get

/-- How a `waitForUrl` run ends: an early `return` after a resolving GET
(`success`), or falling off the loop into
`core.setFailed('Timeout reached: Unable to connect to ' + url)`. -/
inductive UrlPollResult
  | success
  | timeout (message : String)
deriving DecidableEq

/-- A finished `waitForUrl` run together with its observable loop behavior:
how many iterations executed their body (`attemptsMade`) and how many
`wait(checkIntervalInMilliseconds)` sleeps ran (`sleeps`). -/
structure UrlPollRun where
  result : UrlPollResult
  attemptsMade : Nat
  sleeps : Nat
deriving DecidableEq

/-- The `for (let i = 0; i < iterations; i++)` loop of `waitForUrl`,
with `i` the current index and the remaining iteration count as fuel.
A successful attempt returns immediately (no sleep); a failed attempt is
caught, sleeps once, and the loop continues. -/
def waitForUrlGo (vercelPassword : Bool) (checkUri : Option String)
    (attempts : Nat → UrlAttempt) (url : String) : Nat → Nat → UrlPollRun
  | _, 0 => ⟨.timeout ("Timeout reached: Unable to connect to " ++ url), 0, 0⟩
  | i, n + 1 =>
    if attemptSucceeds vercelPassword checkUri (attempts i) then
      ⟨.success, 1, 0⟩
    else
      let rest := waitForUrlGo vercelPassword checkUri attempts url (i + 1) n
      ⟨rest.result, rest.attemptsMade + 1, rest.sleeps + 1⟩

/-- `waitForUrl({url, maxTimeout, checkIntervalInMilliseconds,
vercelPassword, path})`.  `checkUri` is the result of `new URL(path, url)`
(`none` when the constructor throws; the value is fixed across iterations
because `path` and `url` are), and `attempts` supplies the per-iteration
network outcomes. -/
def waitForUrl (url : String) (maxTimeout checkIntervalInMilliseconds : ℚ)
    (vercelPassword : Bool) (checkUri : Option String)
    (attempts : Nat → UrlAttempt) : UrlPollRun :=
  waitForUrlGo vercelPassword checkUri attempts url 0
    (calculateIterations maxTimeout checkIntervalInMilliseconds).toNat

/-! ### waitForDeploymentToStart -/

/-- One record of `vercelDeps.data.deployments` (the fields the function
reads). -/
structure Deployment where
  name : String
  state : String
deriving DecidableEq

/-- One record of a project's `latestDeployments` (the fields the function
reads; `githubCommitSha` is `deployment.meta.githubCommitSha`). -/
structure LatestDeployment where
  name : String
  githubCommitSha : String
  automaticAliases : List String
deriving DecidableEq

/-- One record of `vercelProjects.data.projects` (the fields the function
reads). -/
structure Project where
  latestDeployments : List LatestDeployment
deriving DecidableEq

/-- One entry pushed onto `finalLinks`:
`{ url: deployment.automaticAliases[deployment.automaticAliases.length - 1],
   name: deployment.name }`.  Indexing an empty JavaScript array at `-1`
yields `undefined`, hence `url : Option String` with the last element when
the alias list is non-empty. -/
structure ResolvedTarget where
  url : Option String
  name : String
deriving DecidableEq

/-- The in-progress test applied to each deployment:
`d.state === 'QUEUED' || d.state === 'BUILDING' || d.state === 'INITIALIZING'`. -/
def isInProgress (d : Deployment) : Bool :=
  d.state == "QUEUED" || d.state == "BUILDING" || d.state == "INITIALIZING"

/-- The `finalLinks` accumulation: for every project, for every one of its
`latestDeployments`, if `deployment.meta.githubCommitSha === sha` push
`{url: last automatic alias, name: deployment.name}`, in traversal order. -/
def finalLinks (sha : String) (projects : List Project) : List ResolvedTarget :=
  projects.flatMap fun project =>
    project.latestDeployments.flatMap fun deployment =>
      if deployment.githubCommitSha == sha then
        [⟨deployment.automaticAliases.getLast?, deployment.name⟩]
      else []

/-- The environment of one iteration of the `waitForDeploymentToStart` loop:
either both vercel API calls succeed, yielding the deployment and project
lists, or some step of the `try` block throws (`error`, logged by the catch
as `'error in vercel call'`). -/
inductive VercelApiResult
  | ok (deployments : List Deployment) (projects : List Project)
  | error
deriving DecidableEq

/-- Whether an iteration's API outcome observes at least one in-progress
deployment (an `error` outcome observes none). -/
def observesInProgress : VercelApiResult → Bool
  | .ok deployments _ => deployments.any isInProgress
  | .error => false

/-- A finished `waitForDeploymentToStart` run: the returned value
(`none` for the `return null` after the loop, `some links` for
`return finalLinks`), the number of iterations that executed their body, and
the number of `wait(checkIntervalInMilliseconds)` sleeps performed. -/
structure DeployPollRun where
  result : Option (List ResolvedTarget)
  attemptsMade : Nat
  sleeps : Nat
deriving DecidableEq

/-- The `for (let i = 0; i < iterations; i++)` loop of
`waitForDeploymentToStart`.  An `ok` outcome with no in-progress deployment
returns `finalLinks` at once; an `ok` outcome with an in-progress deployment
sleeps in the `else` branch and then again at the end of the loop body; an
`error` outcome only sleeps at the end of the loop body. -/
def waitForDeploymentGo (sha : String) (api : Nat → VercelApiResult) :
    Nat → Nat → DeployPollRun
  | _, 0 => ⟨none, 0, 0⟩
  | i, n + 1 =>
    match api i with
    | .ok deployments projects =>
      if deployments.any isInProgress then
        let rest := waitForDeploymentGo sha api (i + 1) n
        ⟨rest.result, rest.attemptsMade + 1, rest.sleeps + 2⟩
      else
        ⟨some (finalLinks sha projects), 1, 0⟩
    | .error =>
      let rest := waitForDeploymentGo sha api (i + 1) n
      ⟨rest.result, rest.attemptsMade + 1, rest.sleeps + 1⟩

/-- `waitForDeploymentToStart({sha, maxTimeout, checkIntervalInMilliseconds,
VERCEL_TOKEN})`, with `api` supplying the per-iteration outcomes of the two
vercel API calls. -/
def waitForDeploymentToStart (sha : String) (api : Nat → VercelApiResult)
    (maxTimeout checkIntervalInMilliseconds : ℚ) : DeployPollRun :=
  waitForDeploymentGo sha api 0
    (calculateIterations maxTimeout checkIntervalInMilliseconds).toNat

/-! ### run (orchestrator) -/

/-- How the orchestrator step after deployment resolution ends: `failed` is
`core.setFailed(message); return;`, `completed` means the resolved list was
published via `core.setOutput('urls', urls)` and one `waitForUrl` was
launched per entry. -/
inductive RunOutcome
  | failed (message : String)
  | completed (urls : List ResolvedTarget)
deriving DecidableEq

/-- The tail of `run` after `waitForDeploymentToStart` returns:
`if (!urls) { core.setFailed('no vercel deployment found, exiting...'); return; }`
followed by `core.setOutput('urls', urls)` and the per-URL polls.  In
JavaScript `!urls` is true for the timeout value `null` but false for an
array, including the empty array. -/
def runAfterResolution (urls : Option (List ResolvedTarget)) : RunOutcome :=
  match urls with
  | none => .failed "no vercel deployment found, exiting..."
  | some resolved => .completed resolved

/-- `Number(core.getInput(...)) || default`: `parsed` is the JavaScript
`Number(...)` conversion of the raw input, `none` standing for `NaN`
(non-numeric input).  `||` replaces the falsy numbers `NaN` and `0` by the
default and keeps every other number, negative ones included. -/
def jsNumberOr (dflt : ℚ) (parsed : Option ℚ) : ℚ :=
  match parsed with
  | none => dflt
  | some q => if q = 0 then dflt else q

/-- `const MAX_TIMEOUT = Number(core.getInput('max_timeout')) || 720;` -/
def effectiveMaxTimeout (parsed : Option ℚ) : ℚ :=
  jsNumberOr 720 parsed

/-- `const CHECK_INTERVAL_IN_MS = (Number(core.getInput('check_interval')) || 2) * 1000;` -/
def effectiveCheckIntervalMs (parsed : Option ℚ) : ℚ :=
  jsNumberOr 2 parsed * 1000

/-! ### Concrete environments used by witnesses and counterexamples -/

/-- A health-check environment whose every GET completes with status 404. -/
def attResponse404 : Nat → UrlAttempt :=
  fun _ => ⟨⟨200, none⟩, .response 404⟩

/-- A health-check environment whose every GET completes with status 200. -/
def attResponse200 : Nat → UrlAttempt :=
  fun _ => ⟨⟨200, none⟩, .response 200⟩

/-- A health-check environment whose every bypass handshake returns no
cookie (so `getPassword` throws) while the GET itself would succeed. -/
def attBypassFail : Nat → UrlAttempt :=
  fun _ => ⟨⟨303, none⟩, .response 200⟩

/-- A health-check environment where every request gets no response. -/
def attNoResponse : Nat → UrlAttempt :=
  fun _ => ⟨⟨200, none⟩, .requestError⟩

/-- A deployment API environment that always reports one BUILDING
deployment. -/
def apiBuilding : Nat → VercelApiResult :=
  fun _ => .ok [⟨"app", "BUILDING"⟩] []

/-- A deployment list with no in-progress entry. -/
def depsReady : List Deployment :=
  [⟨"web", "READY"⟩]

/-- One project whose single latest deployment matches commit `abc123` and
has two automatic aliases. -/
def projectsWeb : List Project :=
  [⟨[⟨"web", "abc123", ["web-abc.vercel.app", "web-preview.vercel.app"]⟩]⟩]

/-- A deployment API environment with no in-progress deployment and the
`projectsWeb` project list. -/
def apiWeb : Nat → VercelApiResult :=
  fun _ => .ok depsReady projectsWeb

/-! ### Helper lemmas -/

/-- Concrete iteration count: a 2 second budget at a 2000 ms interval gives
one loop iteration. -/
theorem calcIter_toNat_two_2000 : (calculateIterations 2 2000).toNat = 1 := by
  have h : calculateIterations 2 2000 = 1 := by
    unfold calculateIterations
    norm_num
  rw [h]
  rfl

/-- Concrete iteration count: a 4 second budget at a 2000 ms interval gives
two loop iterations. -/
theorem calcIter_toNat_four_2000 : (calculateIterations 4 2000).toNat = 2 := by
  have h : calculateIterations 4 2000 = 2 := by
    unfold calculateIterations
    norm_num
  rw [h]
  rfl

end Action

namespace Action

/-- C5, counterexample: the claim says `calculateIterations` produces 0 for
every non-positive `maxWaitSeconds`, but `Math.floor` rounds toward negative
infinity, so `calculateIterations(-5, 2000) = -3`, not 0; the same input also
refutes unconditional non-increase in the interval, since
`calculateIterations(-5, 4000) = -2 > -3`. -/
theorem c5_calculateIterations_counterexample :
    calculateIterations (-5) 2000 = -3 ∧ (-3 : ℤ) ≠ 0 ∧
    calculateIterations (-5) 2000 < calculateIterations (-5) 4000 := by
  have h1 : calculateIterations (-5) 2000 = -3 := by
    unfold calculateIterations
    norm_num [Int.floor_eq_iff]
  have h2 : calculateIterations (-5) 4000 = -2 := by
    unfold calculateIterations
    norm_num [Int.floor_eq_iff]
  refine ⟨h1, by decide, ?_⟩
  rw [h1, h2]
  decide

/-- C5 (amended): `calculateIterations(maxWaitSeconds, intervalMillis)`
equals `⌊maxWaitSeconds / (intervalMillis / 1000)⌋`; it is monotonically
non-decreasing in `maxWaitSeconds` for a positive interval and non-increasing
in `intervalMillis` for a non-negative budget and positive intervals;
`calculateIterations 60 2000 = 30` and `calculateIterations 0 2000 = 0`; and
a non-positive `maxWaitSeconds` with a positive interval produces a
non-positive value (so the `for` loops make no attempt), though not
necessarily 0. -/
theorem c5_calculateIterations_amended :
    (∀ mt iv : ℚ, calculateIterations mt iv = ⌊mt / (iv / 1000)⌋) ∧
    (∀ mt mt' iv : ℚ, 0 < iv → mt ≤ mt' →
      calculateIterations mt iv ≤ calculateIterations mt' iv) ∧
    (∀ mt iv iv' : ℚ, 0 ≤ mt → 0 < iv → iv ≤ iv' →
      calculateIterations mt iv' ≤ calculateIterations mt iv) ∧
    calculateIterations 60 2000 = 30 ∧
    calculateIterations 0 2000 = 0 ∧
    (∀ mt iv : ℚ, mt ≤ 0 → 0 < iv → calculateIterations mt iv ≤ 0) := by
  refine ⟨fun _ _ => rfl, ?_, ?_, ?_, ?_, ?_⟩
  · intro mt mt' iv hiv h
    apply Int.floor_le_floor
    have h1000 : (0 : ℚ) < iv / 1000 := by positivity
    exact div_le_div_of_nonneg_right h h1000.le
  · intro mt iv iv' hmt hiv hiv'
    apply Int.floor_le_floor
    have h1 : (0 : ℚ) < iv / 1000 := by positivity
    have h2 : iv / 1000 ≤ iv' / 1000 := by
      exact div_le_div_of_nonneg_right hiv' (by norm_num)
    exact div_le_div_of_nonneg_left hmt h1 h2
  · unfold calculateIterations
    norm_num
  · unfold calculateIterations
    norm_num
  · intro mt iv hmt hiv
    have hdiv : mt / (iv / 1000) ≤ 0 := by
      apply div_nonpos_of_nonpos_of_nonneg hmt
      positivity
    calc calculateIterations mt iv = ⌊mt / (iv / 1000)⌋ := rfl
      _ ≤ ⌊(0 : ℚ)⌋ := Int.floor_le_floor hdiv
      _ = 0 := Int.floor_zero

/-- C5 witness: the monotonicity clause applied at the concrete budgets 60
and 120 seconds with a 2000 ms interval. -/
theorem c5_calculateIterations_witness :
    calculateIterations 60 2000 ≤ calculateIterations 120 2000 :=
  c5_calculateIterations_amended.2.1 60 120 2000 (by norm_num) (by norm_num)

/-- C2, counterexample: when the deployment resolution poller returns the
empty list, `run` does not fail with "no deployment found"; `!urls` is false
for an empty JavaScript array, so the empty list is published as the `urls`
output and the step completes. -/
theorem c2_runAfterResolution_counterexample :
    runAfterResolution (some []) = RunOutcome.completed [] ∧
    runAfterResolution (some []) ≠
      RunOutcome.failed "no vercel deployment found, exiting..." := by
  exact ⟨rfl, by decide⟩

/-- C2 (amended): `run` reports the fatal "no vercel deployment found"
failure exactly when the poller returns its timeout value `null`; any
returned array, the empty one included, is published via
`core.setOutput('urls', ...)` and the step proceeds (with vacuously no
health polls for an empty array). -/
theorem c2_runAfterResolution_amended :
    runAfterResolution none =
      RunOutcome.failed "no vercel deployment found, exiting..." ∧
    ∀ resolved : List ResolvedTarget,
      runAfterResolution (some resolved) = RunOutcome.completed resolved :=
  ⟨rfl, fun _ => rfl⟩

/-- C10, counterexample: the defaults only replace `NaN` and `0`; the
numeric input `-5` for `max_timeout` passes through unchanged, so the
effective budget is not positive and yields a zero iteration count, i.e. a
zero retry budget is configurable. -/
theorem c10_inputs_counterexample :
    effectiveMaxTimeout (some (-5)) = -5 ∧
    ¬ 0 < effectiveMaxTimeout (some (-5)) ∧
    effectiveCheckIntervalMs (some 2) = 2000 ∧
    calculateIterations (effectiveMaxTimeout (some (-5)))
      (effectiveCheckIntervalMs (some 2)) = -3 ∧
    (calculateIterations (effectiveMaxTimeout (some (-5)))
      (effectiveCheckIntervalMs (some 2))).toNat = 0 := by
  have h1 : effectiveMaxTimeout (some (-5)) = -5 := by
    norm_num [effectiveMaxTimeout, jsNumberOr]
  have h2 : effectiveCheckIntervalMs (some 2) = 2000 := by
    norm_num [effectiveCheckIntervalMs, jsNumberOr]
  have h3 : calculateIterations (-5) 2000 = -3 := by
    unfold calculateIterations
    norm_num [Int.floor_eq_iff]
  refine ⟨h1, ?_, h2, ?_, ?_⟩
  · rw [h1]
    norm_num
  · rw [h1, h2, h3]
  · rw [h1, h2, h3]
    rfl

/-- C10 (amended): a `max_timeout` input that parses to 0 or is non-numeric
is replaced by the default 720, and a `check_interval` input that parses to
0 or is non-numeric is replaced by the default 2 seconds (2000 ms); any
other parsed value, negative ones included, passes through unchanged, so the
effective budget is positive only for non-negative parsed inputs. -/
theorem c10_inputs_amended :
    (effectiveMaxTimeout none = 720 ∧ effectiveMaxTimeout (some 0) = 720 ∧
     effectiveCheckIntervalMs none = 2000 ∧
     effectiveCheckIntervalMs (some 0) = 2000) ∧
    (∀ q : ℚ, q ≠ 0 → effectiveMaxTimeout (some q) = q ∧
      effectiveCheckIntervalMs (some q) = q * 1000) ∧
    (∀ q : ℚ, 0 ≤ q → 0 < effectiveMaxTimeout (some q) ∧
      0 < effectiveCheckIntervalMs (some q)) := by
  refine ⟨?_, ?_, ?_⟩
  · norm_num [effectiveMaxTimeout, effectiveCheckIntervalMs, jsNumberOr]
  · intro q hq
    constructor <;> simp [effectiveMaxTimeout, effectiveCheckIntervalMs, jsNumberOr, hq]
  · intro q hq
    rcases eq_or_lt_of_le hq with h0 | h0
    · constructor <;> norm_num [effectiveMaxTimeout, effectiveCheckIntervalMs, jsNumberOr, ← h0]
    · have hne : q ≠ 0 := ne_of_gt h0
      constructor <;> simp [effectiveMaxTimeout, effectiveCheckIntervalMs, jsNumberOr, hne] <;> positivity

/-- C10 witness: the positivity clause applied at the concrete parsed input
3. -/
theorem c10_inputs_witness :
    0 < effectiveMaxTimeout (some 3) ∧ 0 < effectiveCheckIntervalMs (some 3) :=
  c10_inputs_amended.2.2 3 (by norm_num)

/-- A `waitForUrl` run that ends in `success` executed at least one loop
iteration (the zero-fuel run is a timeout). -/
theorem waitForUrlGo_attempts_pos (pw : Bool) (uri : Option String)
    (att : Nat → UrlAttempt) (url : String) (i n : Nat)
    (h : (waitForUrlGo pw uri att url i n).result = UrlPollResult.success) :
    0 < (waitForUrlGo pw uri att url i n).attemptsMade := by
  cases n with
  | zero => simp [waitForUrlGo] at h
  | succ n =>
    by_cases hs : attemptSucceeds pw uri (att i) = true
    · simp [waitForUrlGo, hs]
    · simp [waitForUrlGo, hs]

/-- When `new URL(path, url)` throws, every iteration of the `waitForUrl`
loop fails in the catch block and sleeps; the run consumes the whole budget
and times out. -/
theorem waitForUrlGo_noUri (pw : Bool) (att : Nat → UrlAttempt)
    (url : String) :
    ∀ n i, waitForUrlGo pw none att url i n =
      ⟨.timeout ("Timeout reached: Unable to connect to " ++ url), n, n⟩ := by
  intro n
  induction n with
  | zero => intro i; rfl
  | succ n ih =>
    intro i
    have hfail : attemptSucceeds pw none (att i) = false := by
      simp [attemptSucceeds]
    simp [waitForUrlGo, hfail, ih (i + 1)]

/-- When every attempt within the budget fails, the `waitForUrl` loop makes
exactly one attempt and one sleep per unit of fuel and times out. -/
theorem waitForUrlGo_allFail (pw : Bool) (uri : Option String)
    (att : Nat → UrlAttempt) (url : String) :
    ∀ n i, (∀ j, j < n → attemptSucceeds pw uri (att (i + j)) = false) →
      waitForUrlGo pw uri att url i n =
        ⟨.timeout ("Timeout reached: Unable to connect to " ++ url), n, n⟩ := by
  intro n
  induction n with
  | zero => intro i _; rfl
  | succ n ih =>
    intro i h
    have h0 : attemptSucceeds pw uri (att i) = false := by
      simpa using h 0 (Nat.succ_pos n)
    have h' : ∀ j, j < n → attemptSucceeds pw uri (att (i + 1 + j)) = false := by
      intro j hj
      have := h (j + 1) (Nat.succ_lt_succ hj)
      rwa [show i + (j + 1) = i + 1 + j by omega] at this
    simp [waitForUrlGo, h0, ih (i + 1) h']

/-- Step equation of the `waitForUrl` loop on a failed attempt: the result
is the rest of the run, with one more attempt and one more sleep. -/
theorem waitForUrlGo_succ_fail (pw : Bool) (uri : Option String)
    (att : Nat → UrlAttempt) (url : String) (i n : Nat)
    (hfail : attemptSucceeds pw uri (att i) = false) :
    waitForUrlGo pw uri att url i (n + 1) =
      ⟨(waitForUrlGo pw uri att url (i + 1) n).result,
       (waitForUrlGo pw uri att url (i + 1) n).attemptsMade + 1,
       (waitForUrlGo pw uri att url (i + 1) n).sleeps + 1⟩ := by
  simp [waitForUrlGo, hfail]

/-- C1, counterexample: with a one-iteration budget and a first attempt
whose GET completes with status 404, `waitForUrl` does not stop with
success; axios's default `validateStatus` rejects a 404, the rejection lands
in the catch block, the attempt sleeps and the run times out. -/
theorem c1_waitForUrl_counterexample :
    (waitForUrl "https://example.test" 2 2000 false
        (some "https://example.test/") attResponse404).result ≠
      UrlPollResult.success ∧
    (waitForUrl "https://example.test" 2 2000 false
        (some "https://example.test/") attResponse404).attemptsMade = 1 ∧
    (waitForUrl "https://example.test" 2 2000 false
        (some "https://example.test/") attResponse404).sleeps = 1 := by
  unfold waitForUrl
  rw [calcIter_toNat_two_2000]
  exact ⟨by decide, rfl, rfl⟩

/-- C1 (amended): with the check URL resolved and no password configured, an
attempt whose request completes with a response stops the poll with Success
exactly when the status code lies in [200, 300) (axios's default
`validateStatus`); any other completed response — a 404 in particular — is a
caught rejection that is retried. -/
theorem c1_waitForUrl_amended (url u : String) (mt iv : ℚ)
    (att : Nat → UrlAttempt) (s : Nat)
    (hget : (att 0).get = GetResult.response s)
    (hpos : 0 < (calculateIterations mt iv).toNat) :
    ((waitForUrl url mt iv false (some u) att).result = UrlPollResult.success ∧
      (waitForUrl url mt iv false (some u) att).attemptsMade = 1) ↔
      (200 ≤ s ∧ s < 300) := by
  obtain ⟨n, hn⟩ : ∃ n, (calculateIterations mt iv).toNat = n + 1 :=
    ⟨_, (Nat.succ_pred_eq_of_pos hpos).symm⟩
  unfold waitForUrl
  rw [hn]
  have hsucc : attemptSucceeds false (some u) (att 0) =
      (decide (200 ≤ s) && decide (s < 300)) := by
    simp [attemptSucceeds, hget, axiosGetSucceeds]
  by_cases h2 : 200 ≤ s ∧ s < 300
  · have htrue : attemptSucceeds false (some u) (att 0) = true := by
      rw [hsucc]
      simp [h2.1, h2.2]
    simp [waitForUrlGo, htrue, h2]
  · have hfalse : attemptSucceeds false (some u) (att 0) = false := by
      rw [hsucc]
      rcases Decidable.not_and_iff_or_not.mp h2 with h | h <;> simp [h]
    rw [waitForUrlGo_succ_fail false (some u) att url 0 n hfalse]
    constructor
    · rintro ⟨hres, hatt⟩
      exfalso
      have hres' : (waitForUrlGo false (some u) att url 1 n).result =
          UrlPollResult.success := hres
      have hatt' : (waitForUrlGo false (some u) att url 1 n).attemptsMade + 1 = 1 :=
        hatt
      have hpos' := waitForUrlGo_attempts_pos false (some u) att url 1 n hres'
      omega
    · intro h
      exact absurd h h2

/-- C1 witness: the amended equivalence applied at a first attempt that
completes with status 200, a one-iteration budget and a resolved check
URL. -/
theorem c1_waitForUrl_witness :
    ((waitForUrl "https://example.test" 2 2000 false
        (some "https://example.test/") attResponse200).result =
      UrlPollResult.success ∧
      (waitForUrl "https://example.test" 2 2000 false
        (some "https://example.test/") attResponse200).attemptsMade = 1) ↔
      (200 ≤ 200 ∧ 200 < 300) :=
  c1_waitForUrl_amended "https://example.test" "https://example.test/" 2 2000
    attResponse200 200 rfl
    (by rw [calcIter_toNat_two_2000]; norm_num)

/-- C7, counterexample: with a two-iteration budget and `new URL(path, url)`
throwing, the poll does not abort on the first attempt with a configuration
error; both attempts run, each sleeps, and the run ends in the ordinary
timeout failure. -/
theorem c7_waitForUrl_counterexample :
    (waitForUrl "https://example.test" 4 2000 false none
        attNoResponse).attemptsMade = 2 ∧
    (waitForUrl "https://example.test" 4 2000 false none
        attNoResponse).sleeps = 2 ∧
    (waitForUrl "https://example.test" 4 2000 false none
        attNoResponse).result =
      UrlPollResult.timeout
        ("Timeout reached: Unable to connect to " ++ "https://example.test") := by
  unfold waitForUrl
  rw [calcIter_toNat_four_2000]
  rw [waitForUrlGo_noUri]
  exact ⟨rfl, rfl, rfl⟩

/-- C7 (amended): a failure of `new URL(path, url)` is caught by the same
catch block as any transient error and retried; with an unresolvable check
target every attempt of the budget runs and sleeps once, and the poll ends
with the Timeout failure naming the URL — no ConfigurationError abort
exists. -/
theorem c7_waitForUrl_amended (url : String) (mt iv : ℚ) (pw : Bool)
    (att : Nat → UrlAttempt) :
    waitForUrl url mt iv pw none att =
      ⟨.timeout ("Timeout reached: Unable to connect to " ++ url),
       (calculateIterations mt iv).toNat,
       (calculateIterations mt iv).toNat⟩ := by
  unfold waitForUrl
  exact waitForUrlGo_noUri pw att url _ 0

/-- C8: if no attempt within the budget succeeds, `waitForUrl` performs
exactly `calculateIterations(maxTimeout, checkInterval)` attempts, sleeps
the configured interval after each failed attempt, and reports the Timeout
failure naming the URL; and a failing bypass-token fetch (any `getPassword`
error) merely makes that attempt fail — it never terminates the loop by
itself. -/
theorem c8_waitForUrl (url : String) (mt iv : ℚ) (pw : Bool)
    (uri : Option String) (att : Nat → UrlAttempt)
    (hfail : ∀ j, j < (calculateIterations mt iv).toNat →
      attemptSucceeds pw uri (att j) = false) :
    waitForUrl url mt iv pw uri att =
      ⟨.timeout ("Timeout reached: Unable to connect to " ++ url),
       (calculateIterations mt iv).toNat,
       (calculateIterations mt iv).toNat⟩ ∧
    (∀ (a : UrlAttempt) (e : BypassError),
      getPassword a.bypassResponse = .error e →
      attemptSucceeds true uri a = false) := by
  constructor
  · unfold waitForUrl
    exact waitForUrlGo_allFail pw uri att url _ 0 (by simpa using hfail)
  · intro a e he
    simp [attemptSucceeds, he, Except.toBool]

/-- C8 witness: a password-protected poll whose bypass handshake never
returns a `_vercel_jwt` cookie; with a one-iteration budget the run makes
its one failing attempt, sleeps once, and times out naming the URL. -/
theorem c8_waitForUrl_witness :
    waitForUrl "https://example.test" 2 2000 true
        (some "https://example.test/") attBypassFail =
      ⟨.timeout ("Timeout reached: Unable to connect to " ++ "https://example.test"),
       (calculateIterations 2 2000).toNat,
       (calculateIterations 2 2000).toNat⟩ ∧
    (∀ (a : UrlAttempt) (e : BypassError),
      getPassword a.bypassResponse = .error e →
      attemptSucceeds true (some "https://example.test/") a = false) :=
  c8_waitForUrl "https://example.test" 2 2000 true
    (some "https://example.test/") attBypassFail
    (fun _ _ => rfl)

/-- Flattening a conditional singleton builder is filtering followed by
mapping. -/
theorem flatMap_if_eq_filter_map {α β : Type} (c : α → Bool) (f : α → β) :
    ∀ l : List α,
      (l.flatMap fun a => if c a then [f a] else []) = (l.filter c).map f := by
  intro l
  induction l with
  | nil => rfl
  | cons a l ih =>
    by_cases h : c a = true <;>
      simp [List.flatMap_cons, List.filter_cons, h, ih]

/-- A flatMap of per-element filtered maps is the filtered map of the
flattened list. -/
theorem flatMap_filter_map {α β γ : Type} (g : α → List β) (c : β → Bool)
    (f : β → γ) :
    ∀ l : List α,
      (l.flatMap fun a => ((g a).filter c).map f) =
        ((l.flatMap g).filter c).map f := by
  intro l
  induction l with
  | nil => rfl
  | cons a l ih =>
    simp [List.flatMap_cons, List.filter_append, ih]

/-- `finalLinks` builds exactly one `ResolvedTarget` per latest-deployment
record (across all projects, in traversal order) whose recorded commit SHA
equals the target SHA, taking the last automatic alias as `url` and the
deployment's name as `name`. -/
theorem finalLinks_eq (sha : String) (projects : List Project) :
    finalLinks sha projects =
      ((projects.flatMap Project.latestDeployments).filter
          (fun d => d.githubCommitSha == sha)).map
        (fun d => ⟨d.automaticAliases.getLast?, d.name⟩) := by
  unfold finalLinks
  have h1 : ∀ p : Project,
      (p.latestDeployments.flatMap fun deployment =>
        if deployment.githubCommitSha == sha then
          [(⟨deployment.automaticAliases.getLast?, deployment.name⟩ :
            ResolvedTarget)]
        else []) =
      ((p.latestDeployments.filter (fun d => d.githubCommitSha == sha)).map
        (fun d => ⟨d.automaticAliases.getLast?, d.name⟩)) := fun p =>
    flatMap_if_eq_filter_map _ _ p.latestDeployments
  simp only [h1]
  exact flatMap_filter_map Project.latestDeployments _ _ projects

/-- When every attempt within the budget observes an in-progress deployment,
the resolution loop runs every iteration, sleeps twice per iteration, and
returns `null`. -/
theorem waitForDeploymentGo_allProgress (sha : String)
    (api : Nat → VercelApiResult) :
    ∀ n i, (∀ j, j < n → observesInProgress (api (i + j)) = true) →
      waitForDeploymentGo sha api i n = ⟨none, n, 2 * n⟩ := by
  intro n
  induction n with
  | zero => intro i _; rfl
  | succ n ih =>
    intro i h
    have h0 : observesInProgress (api i) = true := by
      simpa using h 0 (Nat.succ_pos n)
    have h' : ∀ j, j < n → observesInProgress (api (i + 1 + j)) = true := by
      intro j hj
      have := h (j + 1) (Nat.succ_lt_succ hj)
      rwa [show i + (j + 1) = i + 1 + j by omega] at this
    cases hapi : api i with
    | ok deployments projects =>
      rw [hapi] at h0
      simp only [observesInProgress] at h0
      simp only [waitForDeploymentGo, hapi, h0, if_true, ih (i + 1) h']
      refine congrArg (DeployPollRun.mk none (n + 1)) ?_
      omega
    | error =>
      rw [hapi] at h0
      simp [observesInProgress] at h0

/-- C3: when the first attempt's API calls succeed and no deployment of the
team is in progress, the resolution poller returns on that attempt with one
`ResolvedTarget` per latest-deployment record (across all projects) whose
recorded commit SHA equals the target SHA, whose `url` is the last entry of
that deployment's `automaticAliases` and whose `name` is the deployment's
name. -/
theorem c3_waitForDeploymentToStart (sha : String)
    (api : Nat → VercelApiResult) (mt iv : ℚ)
    (deployments : List Deployment) (projects : List Project)
    (hapi : api 0 = .ok deployments projects)
    (hprog : deployments.any isInProgress = false)
    (hpos : 0 < (calculateIterations mt iv).toNat) :
    (waitForDeploymentToStart sha api mt iv).result =
      some (finalLinks sha projects) ∧
    (waitForDeploymentToStart sha api mt iv).attemptsMade = 1 ∧
    finalLinks sha projects =
      ((projects.flatMap Project.latestDeployments).filter
          (fun d => d.githubCommitSha == sha)).map
        (fun d => ⟨d.automaticAliases.getLast?, d.name⟩) := by
  obtain ⟨n, hn⟩ : ∃ n, (calculateIterations mt iv).toNat = n + 1 :=
    ⟨_, (Nat.succ_pred_eq_of_pos hpos).symm⟩
  unfold waitForDeploymentToStart
  rw [hn]
  refine ⟨?_, ?_, finalLinks_eq sha projects⟩ <;>
    simp [waitForDeploymentGo, hapi, hprog]

/-- C3 witness: commit `abc123`, one READY deployment, one project whose
single latest deployment matches `abc123` with aliases
`["web-abc.vercel.app", "web-preview.vercel.app"]`; the poller resolves
`{url: "web-preview.vercel.app", name: "web"}` on the first attempt. -/
theorem c3_waitForDeploymentToStart_witness :
    (waitForDeploymentToStart "abc123" apiWeb 2 2000).result =
      some [⟨some "web-preview.vercel.app", "web"⟩] := by
  have h := c3_waitForDeploymentToStart "abc123" apiWeb 2 2000 depsReady
    projectsWeb rfl (by decide) (by rw [calcIter_toNat_two_2000]; norm_num)
  rw [h.1]
  decide

/-- C4: a deployment is classified in progress exactly when its state is
QUEUED, BUILDING or INITIALIZING; when every attempt within the budget
observes at least one in-progress deployment, the poller returns the timeout
value `null` after exactly `calculateIterations(budget)` attempts; and any
single attempt observing an in-progress deployment never resolves URLs — it
defers to the rest of the loop. -/
theorem c4_waitForDeploymentToStart (sha : String)
    (api : Nat → VercelApiResult) (mt iv : ℚ)
    (hall : ∀ j, j < (calculateIterations mt iv).toNat →
      observesInProgress (api j) = true) :
    (∀ d : Deployment, isInProgress d = true ↔
      (d.state = "QUEUED" ∨ d.state = "BUILDING" ∨ d.state = "INITIALIZING")) ∧
    (waitForDeploymentToStart sha api mt iv).result = none ∧
    (waitForDeploymentToStart sha api mt iv).attemptsMade =
      (calculateIterations mt iv).toNat ∧
    (∀ i n deployments projects, api i = .ok deployments projects →
      deployments.any isInProgress = true →
      (waitForDeploymentGo sha api i (n + 1)).result =
        (waitForDeploymentGo sha api (i + 1) n).result) := by
  have hrun := waitForDeploymentGo_allProgress sha api
    (calculateIterations mt iv).toNat 0 (by simpa using hall)
  refine ⟨?_, ?_, ?_, ?_⟩
  · intro d
    simp [isInProgress, or_assoc]
  · unfold waitForDeploymentToStart
    rw [hrun]
  · unfold waitForDeploymentToStart
    rw [hrun]
  · intro i n deployments projects hapi hprog
    simp [waitForDeploymentGo, hapi, hprog]

/-- C4 witness: an API environment that always reports one BUILDING
deployment; with a one-iteration budget the poller makes its one attempt and
returns `null`. -/
theorem c4_waitForDeploymentToStart_witness :
    (waitForDeploymentToStart "abc123" apiBuilding 2 2000).result = none ∧
    (waitForDeploymentToStart "abc123" apiBuilding 2 2000).attemptsMade =
      (calculateIterations 2 2000).toNat :=
  have h := c4_waitForDeploymentToStart "abc123" apiBuilding 2 2000
    (fun _ _ => rfl)
  ⟨h.2.1, h.2.2.1⟩

/-- C9: an attempt of the resolution loop that observes an in-progress
deployment sleeps in the in-progress branch and then again at the end of the
loop body — two sleeps of the check interval before the next attempt — while
an attempt that fails with an API error sleeps only once. -/
theorem c9_waitForDeploymentGo_sleeps (sha : String)
    (api : Nat → VercelApiResult) (i n : Nat)
    (deployments : List Deployment) (projects : List Project)
    (hapi : api i = .ok deployments projects)
    (hprog : deployments.any isInProgress = true) :
    ((waitForDeploymentGo sha api i (n + 1)).sleeps =
       (waitForDeploymentGo sha api (i + 1) n).sleeps + 2 ∧
     (waitForDeploymentGo sha api i (n + 1)).attemptsMade =
       (waitForDeploymentGo sha api (i + 1) n).attemptsMade + 1) ∧
    (∀ j m, api j = .error →
      (waitForDeploymentGo sha api j (m + 1)).sleeps =
        (waitForDeploymentGo sha api (j + 1) m).sleeps + 1) := by
  constructor
  · constructor <;> simp [waitForDeploymentGo, hapi, hprog]
  · intro j m herr
    simp [waitForDeploymentGo, herr]

/-- C9 witness: the double-sleep step applied to the always-BUILDING
environment at the first iteration. -/
theorem c9_waitForDeploymentGo_sleeps_witness :
    (((waitForDeploymentGo "abc123" apiBuilding 0 1).sleeps =
       (waitForDeploymentGo "abc123" apiBuilding 1 0).sleeps + 2 ∧
     (waitForDeploymentGo "abc123" apiBuilding 0 1).attemptsMade =
       (waitForDeploymentGo "abc123" apiBuilding 1 0).attemptsMade + 1) ∧
    (∀ j m, apiBuilding j = .error →
      (waitForDeploymentGo "abc123" apiBuilding j (m + 1)).sleeps =
        (waitForDeploymentGo "abc123" apiBuilding (j + 1) m).sleeps + 1)) :=
  c9_waitForDeploymentGo_sleeps "abc123" apiBuilding 0 0
    [⟨"app", "BUILDING"⟩] [] rfl (by decide)

/-- `List.find?` returns the unique element satisfying the predicate when
there is exactly one. -/
theorem find?_eq_of_unique {α : Type} (p : α → Bool) (a : α) :
    ∀ l : List α, a ∈ l → p a = true →
      (∀ b ∈ l, p b = true → b = a) → l.find? p = some a := by
  intro l
  induction l with
  | nil => intro ha _ _; cases ha
  | cons x l ih =>
    intro ha hpa huniq
    by_cases hx : p x = true
    · have hxa : x = a := huniq x (List.mem_cons_self x l) hx
      subst hxa
      simp [List.find?_cons_of_pos _ hx]
    · have hxb : p x = false := Bool.eq_false_iff.mpr hx
      rw [List.find?_cons_of_neg _ (by simp [hxb])]
      have ha' : a ∈ l := by
        rcases List.mem_cons.mp ha with h | h
        · exact absurd (h ▸ hpa) hx
        · exact h
      exact ih ha' hpa (fun b hb hpb => huniq b (List.mem_cons_of_mem _ hb) hpb)

/-- C6: `getPassword` treats exactly the statuses in [200, 307) as valid
(any other status makes the axios promise reject); with a valid status it
returns the value of the `_vercel_jwt` cookie when the parsed `Set-Cookie`
header contains that cookie with a non-empty value, and throws
`'no vercel JWT in response'` when the header is absent or every
`_vercel_jwt` cookie in it has an empty value.  It is a single-shot function
of one response — no internal retry. -/
theorem c6_getPassword (response : BypassResponse)
    (hstatus : bypassValidStatus response.status = true) :
    (∀ s : Nat, bypassValidStatus s = true ↔ (200 ≤ s ∧ s < 307)) ∧
    (response.setCookie = none → getPassword response = .error .missingJwt) ∧
    (∀ (cookies : List Cookie) (c : Cookie), response.setCookie = some cookies →
      c ∈ cookies → c.name = "_vercel_jwt" → c.value ≠ "" →
      (∀ c' ∈ cookies, c'.name = "_vercel_jwt" → c' = c) →
      getPassword response = .ok c.value) ∧
    (∀ cookies : List Cookie, response.setCookie = some cookies →
      (∀ c ∈ cookies, c.name = "_vercel_jwt" → c.value = "") →
      getPassword response = .error .missingJwt) ∧
    (∀ s : Nat, bypassValidStatus s = false →
      getPassword ⟨s, response.setCookie⟩ = .error .requestFailed) := by
  refine ⟨?_, ?_, ?_, ?_, ?_⟩
  · intro s
    simp [bypassValidStatus]
  · intro h
    simp [getPassword, hstatus, h]
  · intro cookies c hsc hc hname hval huniq
    have hfind : cookies.find? (fun ck => ck.name == "_vercel_jwt") = some c :=
      find?_eq_of_unique _ c cookies hc (by simp [hname])
        (fun b hb hpb => huniq b hb (by simpa using hpb))
    simp only [getPassword, hstatus, if_true, hsc, hfind]
    rw [if_neg (by simpa using hval)]
  · intro cookies hsc hall
    simp only [getPassword, hstatus, if_true, hsc]
    cases hfind : cookies.find? (fun ck => ck.name == "_vercel_jwt") with
    | none => rfl
    | some ck =>
      have hmem := List.mem_of_find?_eq_some hfind
      have hname : ck.name = "_vercel_jwt" := by
        simpa using List.find?_some hfind
      have hempty : ck.value = "" := hall ck hmem hname
      simp [hempty]
  · intro s hs
    simp [getPassword, hs]

/-- C6 witness: a 303 response whose `Set-Cookie` header carries
`_vercel_jwt=abc123` yields the token `abc123`. -/
theorem c6_getPassword_witness :
    getPassword ⟨303, some [⟨"_vercel_jwt", "abc123"⟩]⟩ = .ok "abc123" :=
  (c6_getPassword ⟨303, some [⟨"_vercel_jwt", "abc123"⟩]⟩ (by decide)).2.2.1
    [⟨"_vercel_jwt", "abc123"⟩] ⟨"_vercel_jwt", "abc123"⟩ rfl (by simp) rfl
    (by decide) (by intro c' hc' _; simpa using hc')

end Action
